import Mathlib

/-!
Shallow embedding of `src/basic_ui.py` (supercontrast-ai/vis-demo).

The repository is a single-file demo that fans one request out to several
AI providers and assembles the responses into a fixed-shape output list.
External collaborators (the filesystem, PIL/matplotlib, and the
supercontrast client package) are modelled as explicit records of fallible
functions (`Except String`); a Python exception is an `Except.error` that
propagates through the caller exactly where the source has no handler.
-/

namespace VisDemo

/-- Modelled from the spec: the `Provider` enumeration lives in the external
`supercontrast` package (not under `src/`); its members are the nine names
referenced by `basic_ui.py` and the spec's closed per-task provider sets. -/
inductive Provider where
  | ANTHROPIC
  | API4AI
  | AWS
  | AZURE
  | CLARIFAI
  | GCP
  | MODERNMT
  | OPENAI
  | SENTISIGHT
deriving DecidableEq, Repr

/-- Modelled from the spec: `provider.value` of the external enumeration, used
only to build output file names; modelled as the lower-cased member name. -/
def Provider.value : Provider → String
  | .ANTHROPIC => "anthropic"
  | .API4AI => "api4ai"
  | .AWS => "aws"
  | .AZURE => "azure"
  | .CLARIFAI => "clarifai"
  | .GCP => "gcp"
  | .MODERNMT => "modernmt"
  | .OPENAI => "openai"
  | .SENTISIGHT => "sentisight"

/-- Python `Provider[name]`: enum member lookup by name; raises `KeyError`
for a string that is not a member name. -/
def Provider.enumGet (name : String) : Except String Provider :=
  match name with
  | "ANTHROPIC" => .ok .ANTHROPIC
  | "API4AI" => .ok .API4AI
  | "AWS" => .ok .AWS
  | "AZURE" => .ok .AZURE
  | "CLARIFAI" => .ok .CLARIFAI
  | "GCP" => .ok .GCP
  | "MODERNMT" => .ok .MODERNMT
  | "OPENAI" => .ok .OPENAI
  | "SENTISIGHT" => .ok .SENTISIGHT
  | _ => .error ("KeyError: " ++ name)

/-- One OCR bounding box as exposed by the supercontrast response shape:
four corner coordinates (`coordinates[0] .. coordinates[3]`) plus the
recognized text fragment.  Coordinates are integer pixel positions. -/
structure OCRBoundingBox where
  /-- `box.coordinates[0]` -/
  coord0 : Int × Int
  /-- `box.coordinates[1]` -/
  coord1 : Int × Int
  /-- `box.coordinates[2]` -/
  coord2 : Int × Int
  /-- `box.coordinates[3]` -/
  coord3 : Int × Int
  /-- `box.text` -/
  text : String
deriving DecidableEq, Repr

/-- OCR response: `all_text` plus `bounding_boxes`. -/
structure OCRResponse where
  all_text : String
  bounding_boxes : List OCRBoundingBox
deriving DecidableEq, Repr

/-- Transcription response (`response.text`). -/
structure TranscriptionResponse where
  text : String
deriving DecidableEq, Repr

/-- Translation response (`response.text`). -/
structure TranslationResponse where
  text : String
deriving DecidableEq, Repr

/-- A `matplotlib.patches.Rectangle` as constructed in `plot_bounding_boxes`:
anchor point `xy`, signed `width` and `height`, and the styling arguments. -/
structure Rectangle where
  xy : Int × Int
  width : Int
  height : Int
  linewidth : Nat
  edgecolor : String
  facecolor : String
deriving DecidableEq, Repr

/-- An `ax.text(...)` call as issued in `plot_bounding_boxes`: position,
string, and styling. -/
structure TextLabel where
  x : Int
  y : Int
  s : String
  color : String
  fontsize : Nat
deriving DecidableEq, Repr

/-- A raster image: either loaded from a file (`Image.open(path)` /
`Image.open("dummy.png")`), or rendered from a figure that shows a base
image with a list of rectangle patches and text labels drawn on top
(`fig.canvas` converted back to a PIL image). -/
inductive PILImage where
  | fromFile (path : String)
  | render (base : PILImage) (patches : List Rectangle) (labels : List TextLabel)
deriving DecidableEq, Repr

/-- The rectangle patches recorded in a rendered image (none for a plain
file image). -/
def figPatches : PILImage → List Rectangle
  | .fromFile _ => []
  | .render _ patches _ => patches

/-- The argument passed to `get_image_path`: a string (path), a PIL image,
or any other Python value. -/
inductive ImageInput where
  | str (s : String)
  | pil (img : PILImage)
  | other
deriving DecidableEq, Repr

/-- The filesystem and image-persistence effects used by `basic_ui.py`:
`os.path.isdir`, `os.path.isfile`, `os.listdir`, `os.makedirs`, and
`*.save(path)` (both PIL image save and figure-image save). -/
structure FS where
  isDir : String → Bool
  isFile : String → Bool
  listdir : String → List String
  makedirs : String → Except String Unit
  save : PILImage → String → Except String Unit

/-- The external supercontrast client, collapsed to one call per task kind:
`supercontrast_client(task=T, providers=[p], ...).request(Request(...))`.
A failing provider call is an `Except.error`. -/
structure Adapter where
  ocr : Provider → String → Except String OCRResponse
  transcription : Provider → String → Except String TranscriptionResponse
  translation : Provider → String → String → String → Except String TranslationResponse

/-- `OUTPUT_DIR = "test_data/ocr"`. -/
def OUTPUT_DIR : String := "test_data/ocr"

/-- `OCR_PROVIDERS`, the canonical OCR provider order. -/
def OCR_PROVIDERS : List String :=
  ["API4AI", "AWS", "AZURE", "CLARIFAI", "GCP", "SENTISIGHT"]

/-- The canonical transcription provider order (the literal
`["AZURE", "OPENAI"]` in `process_transcription`). -/
def TRANSCRIPTION_PROVIDERS : List String := ["AZURE", "OPENAI"]

/-- The canonical translation provider order (the literal list in
`process_translation`). -/
def TRANSLATION_PROVIDERS : List String :=
  ["ANTHROPIC", "AWS", "AZURE", "GCP", "MODERNMT", "OPENAI"]

/-- The image-file extensions recognized by `get_image_path`. -/
def IMAGE_EXTS : List String := [".png", ".jpg", ".jpeg", ".tiff", ".bmp", ".gif"]

/-- Python `str.lower()`, on the character list (ASCII case mapping, which
covers every file name and extension appearing here). -/
def strLower (s : String) : String := ⟨s.data.map Char.toLower⟩

/-- Python `str.endswith(suffix)`, on the character lists. -/
def strEndsWith (s suf : String) : Bool :=
  s.data.drop (s.data.length - suf.data.length) == suf.data

/-- `os.path.join` for the simple relative paths used here. -/
def pathJoin (a b : String) : String :=
  if a = "" then b else if strEndsWith a "/" then a ++ b else a ++ "/" ++ b

/-- `os.path.basename`. -/
def basename (p : String) : String := (p.splitOn "/").getLastD ""

/-- Python dict lookup `d.get(k)` on an insertion-ordered association list. -/
def dictGet? {κ ν : Type} [DecidableEq κ] : List (κ × ν) → κ → Option ν
  | [], _ => none
  | (k₂, v) :: rest, k => if k₂ = k then some v else dictGet? rest k

/-- Python dict assignment `d[k] = v`: replace the value of an existing key
in place, otherwise append the new pair at the end. -/
def dictInsert {κ ν : Type} [DecidableEq κ] : List (κ × ν) → κ → ν → List (κ × ν)
  | [], k, v => [(k, v)]
  | (k₂, v₂) :: rest, k, v =>
      if k₂ = k then (k₂, v) :: rest else (k₂, v₂) :: dictInsert rest k v

/-- `get_image_path(image_input)`: a directory is searched for the first
file whose lower-cased name ends with a known image extension; an existing
file path is returned unchanged; a PIL image is saved to a temp path which
is returned; anything else raises. -/
def get_image_path (fs : FS) : ImageInput → Except String String
  | .str image_input =>
      if fs.isDir image_input then
        match (fs.listdir image_input).find?
            (fun file => IMAGE_EXTS.any (fun ext => strEndsWith (strLower file) ext)) with
        | some file => .ok (pathJoin image_input file)
        | none => .error ("No image file found in directory: " ++ image_input)
      else if fs.isFile image_input then .ok image_input
      else .error ("Invalid image path: " ++ image_input)
  | .pil img =>
      match fs.save img (pathJoin OUTPUT_DIR "temp_input_image.png") with
      | .error e => .error e
      | .ok _ => .ok (pathJoin OUTPUT_DIR "temp_input_image.png")
  | .other => .error "Unsupported image input type"

/-- The `patches.Rectangle(...)` built for one bounding box: anchored at
`coordinates[0]`, width `coordinates[2][0] - coordinates[0][0]`, height
`coordinates[2][1] - coordinates[0][1]`, `linewidth=1`, red edge, no fill. -/
def mkRect (box : OCRBoundingBox) : Rectangle :=
  { xy := box.coord0
    width := box.coord2.1 - box.coord0.1
    height := box.coord2.2 - box.coord0.2
    linewidth := 1
    edgecolor := "r"
    facecolor := "none" }

/-- The `ax.text(...)` issued for one bounding box: the recognized fragment
at the box's origin corner, blue, fontsize 8. -/
def mkLabel (box : OCRBoundingBox) : TextLabel :=
  { x := box.coord0.1
    y := box.coord0.2
    s := box.text
    color := "blue"
    fontsize := 8 }

/-- One provider entry of `plot_bounding_boxes`'s result dict:
`{"image": img_result, "text": ocr_response.all_text}`. -/
structure PlotResult where
  image : PILImage
  text : String
deriving DecidableEq, Repr

/-- The per-provider figure of `plot_bounding_boxes`: a fresh figure showing
the base image with one rectangle patch and one text label per bounding
box, converted back to a PIL image, paired with the full text. -/
def plot_one (img : PILImage) (ocr_response : OCRResponse) : PlotResult :=
  { image := PILImage.render img
      (ocr_response.bounding_boxes.map mkRect)
      (ocr_response.bounding_boxes.map mkLabel)
    text := ocr_response.all_text }

/-- The `for provider, ocr_response in responses.items()` loop of
`plot_bounding_boxes`: render the figure, `os.makedirs(output_dir,
exist_ok=True)`, save the image (no handler: a failure propagates), then
record the `{image, text}` entry. -/
def plotLoop (fs : FS) (img : PILImage) (image_name : String) (output_dir : String) :
    List (Provider × OCRResponse) → Except String (List (Provider × PlotResult))
  | [] => .ok []
  | (provider, ocr_response) :: rest =>
      let img_result := plot_one img ocr_response
      match fs.makedirs output_dir with
      | .error e => .error e
      | .ok _ =>
        match fs.save img_result.image
            (pathJoin output_dir ("ocr_" ++ provider.value ++ "_" ++ image_name)) with
        | .error e => .error e
        | .ok _ =>
          match plotLoop fs img image_name output_dir rest with
          | .error e => .error e
          | .ok tail => .ok ((provider, img_result) :: tail)

/-- `plot_bounding_boxes(image_path, responses, output_dir)`. -/
def plot_bounding_boxes (fs : FS) (image_path : String)
    (responses : List (Provider × OCRResponse)) (output_dir : String) :
    Except String (List (Provider × PlotResult)) :=
  match get_image_path fs (.str image_path) with
  | .error e => .error e
  | .ok path => plotLoop fs (PILImage.fromFile path) (basename path) output_dir responses

/-- The fan-out loop of `process_ocr`: for each selected provider name,
look the enum member up, invoke the client, and store the response keyed
by the member.  No handler: any failure propagates. -/
def ocrFanOut (ad : Adapter) (image_path : String) :
    List String → List (Provider × OCRResponse) → Except String (List (Provider × OCRResponse))
  | [], results => .ok results
  | provider :: rest, results =>
      match Provider.enumGet provider with
      | .error e => .error e
      | .ok p =>
        match ad.ocr p image_path with
        | .error e => .error e
        | .ok response => ocrFanOut ad image_path rest (dictInsert results p response)

/-- One display slot handed to the UI layer: an image or a text string. -/
inductive DisplayValue where
  | img (i : PILImage)
  | txt (s : String)
deriving DecidableEq, Repr

/-- The two display values one canonical provider contributes in
`process_ocr`'s assembly loop: `[image, text]` from `plot_results` when the
provider is a key of it, otherwise the placeholder pair
`[Image.open("dummy.png"), "foo bar"]`. -/
def ocrEntry (plot_results : List (Provider × PlotResult)) (p : Provider) :
    List DisplayValue :=
  match dictGet? plot_results p with
  | some r => [DisplayValue.img r.image, DisplayValue.txt r.text]
  | none => [DisplayValue.img (PILImage.fromFile "dummy.png"),
             DisplayValue.txt "foo bar"]

/-- The assembly loop of `process_ocr`: for each canonical provider name,
look the enum member up and extend the response list with that provider's
two display values. -/
def ocrAssembleLoop (plot_results : List (Provider × PlotResult)) :
    List String → Except String (List DisplayValue)
  | [] => .ok []
  | provider :: rest =>
      match Provider.enumGet provider with
      | .error e => .error e
      | .ok p =>
        match ocrAssembleLoop plot_results rest with
        | .error e => .error e
        | .ok tail => .ok (ocrEntry plot_results p ++ tail)

/-- The whole assembly step of `process_ocr` over `OCR_PROVIDERS`. -/
def ocrAssemble (plot_results : List (Provider × PlotResult)) :
    Except String (List DisplayValue) :=
  ocrAssembleLoop plot_results OCR_PROVIDERS

/-- `process_ocr(image, providers)`. -/
def process_ocr (fs : FS) (ad : Adapter) (image : ImageInput) (providers : List String) :
    Except String (List DisplayValue) :=
  match get_image_path fs image with
  | .error e => .error e
  | .ok image_path =>
    match ocrFanOut ad image_path providers [] with
    | .error e => .error e
    | .ok results =>
      match plot_bounding_boxes fs image_path results OUTPUT_DIR with
      | .error e => .error e
      | .ok plot_results => ocrAssemble plot_results

/-- One iteration body of the `process_transcription` loop:
`Provider[provider]`, then the client request, then `response.text`. -/
def transcriptionCall (ad : Adapter) (audio : String) (provider : String) :
    Except String String :=
  match Provider.enumGet provider with
  | .error e => .error e
  | .ok p =>
    match ad.transcription p audio with
    | .error e => .error e
    | .ok response => .ok response.text

/-- One iteration body of the `process_translation` loop. -/
def translationCall (ad : Adapter) (text source_lang target_lang : String)
    (provider : String) : Except String String :=
  match Provider.enumGet provider with
  | .error e => .error e
  | .ok p =>
    match ad.translation p source_lang target_lang text with
    | .error e => .error e
    | .ok response => .ok response.text

/-- The shared fan-out loop shape of `process_transcription` and
`process_translation`: results are keyed by the provider name string. -/
def textFanOut (call : String → Except String String) :
    List String → List (String × String) → Except String (List (String × String))
  | [], results => .ok results
  | provider :: rest, results =>
      match call provider with
      | .error e => .error e
      | .ok t => textFanOut call rest (dictInsert results provider t)

/-- The text-task assembly: `[results.get(provider, "") for provider in canonical]`. -/
def textAssemble (canonical : List String) (results : List (String × String)) :
    List String :=
  canonical.map (fun provider => (dictGet? results provider).getD "")

/-- `process_transcription(audio, providers)`. -/
def process_transcription (ad : Adapter) (audio : String) (providers : List String) :
    Except String (List String) :=
  match textFanOut (transcriptionCall ad audio) providers [] with
  | .error e => .error e
  | .ok results => .ok (textAssemble TRANSCRIPTION_PROVIDERS results)

/-- `process_translation(text, providers, source_lang, target_lang)`. -/
def process_translation (ad : Adapter) (text : String) (providers : List String)
    (source_lang target_lang : String) : Except String (List String) :=
  match textFanOut (translationCall ad text source_lang target_lang) providers [] with
  | .error e => .error e
  | .ok results => .ok (textAssemble TRANSLATION_PROVIDERS results)

/-! ### Concrete fixtures used by witnesses and counterexamples -/

/-- A filesystem model in which every path is an existing regular file and
every persistence effect succeeds. -/
def fs0 : FS :=
  { isDir := fun _ => false
    isFile := fun _ => true
    listdir := fun _ => []
    makedirs := fun _ => .ok ()
    save := fun _ _ => .ok () }

/-- A filesystem model with two directories: `photos` containing exactly
`photo.png`, and `empty` containing nothing. -/
def fsDir : FS :=
  { isDir := fun s => s = "photos" || s = "empty"
    isFile := fun _ => false
    listdir := fun s => if s = "photos" then ["photo.png"] else []
    makedirs := fun _ => .ok ()
    save := fun _ _ => .ok () }

/-- A bounding box whose origin corner lies numerically after the opposite
corner, so the derived width and height are negative. -/
def boxNeg : OCRBoundingBox :=
  { coord0 := (50, 40)
    coord1 := (50, 10)
    coord2 := (10, 10)
    coord3 := (10, 40)
    text := "neg" }

/-- An OCR response holding only `boxNeg`. -/
def respNeg : OCRResponse := { all_text := "neg", bounding_boxes := [boxNeg] }

/-- A filesystem model like `fs0` except that every image save fails. -/
def fsSaveFail : FS :=
  { isDir := fun _ => false
    isFile := fun _ => true
    listdir := fun _ => []
    makedirs := fun _ => .ok ()
    save := fun _ _ => .error "disk full" }

/-- Sample OCR responses. -/
def respA1 : OCRResponse := { all_text := "alpha", bounding_boxes := [] }

/-- A second response for the same provider, with different text and boxes. -/
def respA2 : OCRResponse := { all_text := "beta", bounding_boxes := [boxNeg] }

/-- A response for a second provider. -/
def respG : OCRResponse := { all_text := "gamma", bounding_boxes := [] }

/-- An adapter for which exactly the `AWS` provider fails on every task,
and every other provider succeeds. -/
def adFail : Adapter :=
  { ocr := fun p _ => if p = Provider.AWS then .error "AWS boom"
      else .ok { all_text := "HELLO", bounding_boxes := [] }
    transcription := fun p _ => if p = Provider.AWS then .error "AWS boom"
      else .ok { text := "hi" }
    translation := fun p _ _ _ => if p = Provider.AWS then .error "AWS boom"
      else .ok { text := "bonjour" } }

/-- An adapter whose every call succeeds with a fixed response. -/
def adOK : Adapter :=
  { ocr := fun _ _ => .ok { all_text := "HELLO", bounding_boxes := [] }
    transcription := fun _ _ => .ok { text := "hi" }
    translation := fun _ _ _ _ => .ok { text := "bonjour" } }

/-! ### Association-list lemmas -/

theorem dictGet?_dictInsert {κ ν : Type} [DecidableEq κ] (d : List (κ × ν))
    (k k' : κ) (v : ν) :
    dictGet? (dictInsert d k v) k' = if k = k' then some v else dictGet? d k' := by
  induction d with
  | nil => simp [dictInsert, dictGet?]
  | cons hd tl ih =>
    obtain ⟨k₂, v₂⟩ := hd
    simp only [dictInsert]
    by_cases h1 : k₂ = k
    · rw [if_pos h1]
      subst h1
      simp only [dictGet?]
      by_cases h2 : k₂ = k' <;> simp [h2]
    · rw [if_neg h1]
      simp only [dictGet?]
      by_cases h2 : k₂ = k'
      · subst h2
        have hk : ¬ k = k₂ := fun h => h1 h.symm
        simp [hk]
      · simp [h2, ih]

theorem dictGet?_dictInsert_ne {κ ν : Type} [DecidableEq κ] (d : List (κ × ν))
    (k k' : κ) (v : ν) (h : k ≠ k') :
    dictGet? (dictInsert d k v) k' = dictGet? d k' := by
  rw [dictGet?_dictInsert, if_neg h]

/-! ### Assembly lemmas -/

theorem ocrEntry_length (pr : List (Provider × PlotResult)) (p : Provider) :
    (ocrEntry pr p).length = 2 := by
  cases h : dictGet? pr p <;> simp [ocrEntry, h]

theorem ocrEntry_absent (pr : List (Provider × PlotResult)) (p : Provider)
    (h : dictGet? pr p = none) :
    ocrEntry pr p = [DisplayValue.img (PILImage.fromFile "dummy.png"),
                     DisplayValue.txt "foo bar"] := by
  simp [ocrEntry, h]

theorem ocrAssembleLoop_length (pr : List (Provider × PlotResult)) :
    ∀ (names : List String) (out : List DisplayValue),
    ocrAssembleLoop pr names = .ok out → out.length = 2 * names.length := by
  intro names
  induction names with
  | nil =>
    intro out h
    simp only [ocrAssembleLoop] at h
    cases h
    rfl
  | cons n rest ih =>
    intro out h
    simp only [ocrAssembleLoop] at h
    cases h1 : Provider.enumGet n with
    | error e => rw [h1] at h; cases h
    | ok p =>
      rw [h1] at h
      cases h2 : ocrAssembleLoop pr rest with
      | error e => rw [h2] at h; cases h
      | ok tail =>
        rw [h2] at h
        cases h
        have := ih tail h2
        simp [ocrEntry_length, this]
        ring

theorem ocrAssembleLoop_absent (pr : List (Provider × PlotResult)) :
    ∀ (names : List String) (out : List DisplayValue) (i : Nat) (name : String)
      (p : Provider),
    ocrAssembleLoop pr names = .ok out → names[i]? = some name →
    Provider.enumGet name = .ok p → dictGet? pr p = none →
    out[2 * i]? = some (DisplayValue.img (PILImage.fromFile "dummy.png")) ∧
    out[2 * i + 1]? = some (DisplayValue.txt "foo bar") := by
  intro names
  induction names with
  | nil => intro out i name p _ hidx; simp at hidx
  | cons n rest ih =>
    intro out i name p h hidx he hd
    simp only [ocrAssembleLoop] at h
    cases h1 : Provider.enumGet n with
    | error e => rw [h1] at h; cases h
    | ok q =>
      rw [h1] at h
      cases h2 : ocrAssembleLoop pr rest with
      | error e => rw [h2] at h; cases h
      | ok tail =>
        rw [h2] at h
        cases h
        cases i with
        | zero =>
          have hn : n = name := by simpa using hidx
          subst hn
          have hq : q = p := by
            rw [h1] at he
            cases he
            rfl
          subst hq
          rw [ocrEntry_absent pr q hd]
          constructor <;> simp
        | succ j =>
          have hidx' : rest[j]? = some name := by simpa using hidx
          have hlen : (ocrEntry pr q).length = 2 := ocrEntry_length pr q
          have e1 : (ocrEntry pr q ++ tail)[2 * (j + 1)]? = tail[2 * j]? := by
            rw [List.getElem?_append_right (by omega)]
            congr 1
            omega
          have e2 : (ocrEntry pr q ++ tail)[2 * (j + 1) + 1]? = tail[2 * j + 1]? := by
            rw [List.getElem?_append_right (by omega)]
            congr 1
            omega
          rw [e1, e2]
          exact ih tail j name p h2 hidx' he hd

theorem textAssemble_length (canonical : List String)
    (results : List (String × String)) :
    (textAssemble canonical results).length = canonical.length := by
  simp [textAssemble]

theorem textAssemble_absent (canonical : List String)
    (results : List (String × String)) (i : Nat) (name : String)
    (hidx : canonical[i]? = some name) (hd : dictGet? results name = none) :
    (textAssemble canonical results)[i]? = some "" := by
  simp [textAssemble, List.getElem?_map, hidx, hd]

/-! ### Fan-out error propagation lemmas -/

theorem ocrFanOut_error_of_mem (ad : Adapter) (image_path : String) :
    ∀ (names : List String) (acc : List (Provider × OCRResponse)) (name : String),
    name ∈ names → (∀ p : Provider, Provider.enumGet name ≠ .ok p) →
    ∃ e, ocrFanOut ad image_path names acc = .error e := by
  intro names
  induction names with
  | nil => intro acc name hmem; simp at hmem
  | cons n rest ih =>
    intro acc name hmem hbad
    cases h1 : Provider.enumGet n with
    | error e => exact ⟨e, by simp only [ocrFanOut]; rw [h1]⟩
    | ok p =>
      cases h2 : ad.ocr p image_path with
      | error e => exact ⟨e, by simp only [ocrFanOut, h1, h2]⟩
      | ok resp =>
        have hmem' : name ∈ rest := by
          cases hmem with
          | head => exact absurd h1 (hbad p)
          | tail _ hm => exact hm
        obtain ⟨e, he⟩ := ih (dictInsert acc p resp) name hmem' hbad
        exact ⟨e, by simp only [ocrFanOut, h1, h2]; exact he⟩

theorem textFanOut_error_of_mem (call : String → Except String String) :
    ∀ (names : List String) (acc : List (String × String)) (name : String),
    name ∈ names → (∀ t, call name ≠ .ok t) →
    ∃ e, textFanOut call names acc = .error e := by
  intro names
  induction names with
  | nil => intro acc name hmem; simp at hmem
  | cons n rest ih =>
    intro acc name hmem hbad
    cases h1 : call n with
    | error e => exact ⟨e, by simp only [textFanOut]; rw [h1]⟩
    | ok t =>
      have hmem' : name ∈ rest := by
        cases hmem with
        | head => exact absurd h1 (hbad t)
        | tail _ hm => exact hm
      obtain ⟨e, he⟩ := ih (dictInsert acc n t) name hmem' hbad
      exact ⟨e, by simp only [textFanOut]; rw [h1]; exact he⟩

theorem translationCall_error (ad : Adapter) (text source_lang target_lang name : String)
    (hbad : ∀ p : Provider, Provider.enumGet name ≠ .ok p) :
    ∀ t, translationCall ad text source_lang target_lang name ≠ .ok t := by
  intro t h
  simp only [translationCall] at h
  cases h1 : Provider.enumGet name with
  | error e => rw [h1] at h; cases h
  | ok p => exact hbad p h1

/-! ### Theorems -/

/-- C2: whenever an output sequence is assembled, its length is fixed per
task kind regardless of the selected provider set (the empty set included):
`process_ocr` yields 12 values (an image and a text per provider of the
6-element canonical OCR order), `process_transcription` yields 2, and
`process_translation` yields 6. -/
theorem C2_theorem :
    (∀ (fs : FS) (ad : Adapter) (image : ImageInput) (providers : List String)
       (out : List DisplayValue),
       process_ocr fs ad image providers = .ok out → out.length = 12) ∧
    (∀ (ad : Adapter) (audio : String) (providers : List String)
       (out : List String),
       process_transcription ad audio providers = .ok out → out.length = 2) ∧
    (∀ (ad : Adapter) (text : String) (providers : List String)
       (source_lang target_lang : String) (out : List String),
       process_translation ad text providers source_lang target_lang = .ok out →
       out.length = 6) := by
  refine ⟨?_, ?_, ?_⟩
  · intro fs ad image providers out h
    simp only [process_ocr] at h
    split at h
    · cases h
    · split at h
      · cases h
      · split at h
        · cases h
        · simp only [ocrAssemble] at h
          have := ocrAssembleLoop_length _ OCR_PROVIDERS out h
          simpa [OCR_PROVIDERS] using this
  · intro ad audio providers out h
    simp only [process_transcription] at h
    split at h
    · cases h
    · cases h
      simp [textAssemble_length, TRANSCRIPTION_PROVIDERS]
  · intro ad text providers source_lang target_lang out h
    simp only [process_translation] at h
    split at h
    · cases h
    · cases h
      simp [textAssemble_length, TRANSLATION_PROVIDERS]

/-- C2 witness: with no provider selected at all, the three task kinds
still produce sequences of lengths 12, 2 and 6. -/
theorem C2_witness :
    (∃ out, process_ocr fs0 adOK (.str "img.png") [] = .ok out ∧
      out.length = 12) ∧
    (∃ out, process_transcription adOK "a.wav" [] = .ok out ∧ out.length = 2) ∧
    (∃ out, process_translation adOK "hello" [] "en" "fr" = .ok out ∧
      out.length = 6) :=
  ⟨⟨_, rfl, C2_theorem.1 fs0 adOK (.str "img.png") [] _ rfl⟩,
   ⟨_, rfl, C2_theorem.2.1 adOK "a.wav" [] _ rfl⟩,
   ⟨_, rfl, C2_theorem.2.2 adOK "hello" [] "en" "fr" _ rfl⟩⟩

/-- C3: a canonical-order provider that is absent from the result mapping
(failed or not selected) gets exactly the defined placeholder at its
output position: for OCR the `dummy.png` image plus `"foo bar"`, for
Transcription and Translation the empty string. -/
theorem C3_theorem :
    (∀ (pr : List (Provider × PlotResult)) (out : List DisplayValue) (i : Nat)
       (name : String) (p : Provider),
       ocrAssemble pr = .ok out → OCR_PROVIDERS[i]? = some name →
       Provider.enumGet name = .ok p → dictGet? pr p = none →
       out[2 * i]? = some (DisplayValue.img (PILImage.fromFile "dummy.png")) ∧
       out[2 * i + 1]? = some (DisplayValue.txt "foo bar")) ∧
    (∀ (results : List (String × String)) (i : Nat) (name : String),
       TRANSCRIPTION_PROVIDERS[i]? = some name → dictGet? results name = none →
       (textAssemble TRANSCRIPTION_PROVIDERS results)[i]? = some "") ∧
    (∀ (results : List (String × String)) (i : Nat) (name : String),
       TRANSLATION_PROVIDERS[i]? = some name → dictGet? results name = none →
       (textAssemble TRANSLATION_PROVIDERS results)[i]? = some "") := by
  refine ⟨?_, ?_, ?_⟩
  · intro pr out i name p h hidx he hd
    exact ocrAssembleLoop_absent pr OCR_PROVIDERS out i name p h hidx he hd
  · intro results i name hidx hd
    exact textAssemble_absent _ results i name hidx hd
  · intro results i name hidx hd
    exact textAssemble_absent _ results i name hidx hd

/-- C3 witness: with an empty result mapping, the first canonical provider
of each task kind gets its placeholder value-for-value. -/
theorem C3_witness :
    (∃ out, ocrAssemble [] = .ok out ∧
      out[2 * 0]? = some (DisplayValue.img (PILImage.fromFile "dummy.png")) ∧
      out[2 * 0 + 1]? = some (DisplayValue.txt "foo bar")) ∧
    (textAssemble TRANSCRIPTION_PROVIDERS [])[0]? = some "" ∧
    (textAssemble TRANSLATION_PROVIDERS [])[0]? = some "" :=
  ⟨⟨_, rfl, C3_theorem.1 [] _ 0 "API4AI" Provider.API4AI rfl rfl rfl rfl⟩,
   C3_theorem.2.1 [] 0 "AZURE" rfl rfl,
   C3_theorem.2.2 [] 0 "ANTHROPIC" rfl rfl⟩

/-- C4: `get_image_path` on a directory containing exactly `photo.png`
returns the joined path to `photo.png`; on a directory with no file of a
recognized image extension (in particular an empty one) it fails with the
invalid-input error instead of returning a value. -/
theorem C4_theorem : ∀ (fs : FS) (dir : String), fs.isDir dir = true →
    ((fs.listdir dir = ["photo.png"] →
      get_image_path fs (.str dir) = .ok (pathJoin dir "photo.png")) ∧
     ((∀ f ∈ fs.listdir dir,
        IMAGE_EXTS.any (fun ext => strEndsWith (strLower f) ext) = false) →
      get_image_path fs (.str dir) =
        .error ("No image file found in directory: " ++ dir))) := by
  intro fs dir hdir
  constructor
  · intro hl
    simp only [get_image_path, hdir, if_true, hl]
    rw [(by decide : (List.find?
      (fun file => IMAGE_EXTS.any fun ext => strEndsWith (strLower file) ext)
      ["photo.png"]) = some "photo.png")]
  · intro hnone
    simp only [get_image_path, hdir, if_true]
    have : (fs.listdir dir).find?
        (fun file => IMAGE_EXTS.any (fun ext => strEndsWith (strLower file) ext)) = none := by
      rw [List.find?_eq_none]
      intro f hf
      simp [hnone f hf]
    rw [this]

/-- C4 witness: the two branches at the concrete filesystem `fsDir`. -/
theorem C4_witness :
    get_image_path fsDir (.str "photos") = .ok (pathJoin "photos" "photo.png") ∧
    get_image_path fsDir (.str "empty") =
      .error ("No image file found in directory: " ++ "empty") :=
  ⟨(C4_theorem fsDir "photos" (by decide)).1 (by decide),
   (C4_theorem fsDir "empty" (by decide)).2 (by intro f hf; simp [fsDir] at hf)⟩

/-- C9: for a string input naming an existing regular file (not a
directory), `get_image_path` returns the input path unchanged, with no
check of its extension or contents. -/
theorem C9_theorem : ∀ (fs : FS) (s : String),
    fs.isDir s = false → fs.isFile s = true →
    get_image_path fs (.str s) = .ok s := by
  intro fs s h1 h2
  simp [get_image_path, h1, h2]

/-- C9 witness: a `.txt` path that is an existing file passes resolution. -/
theorem C9_witness : get_image_path fs0 (.str "notes.txt") = .ok "notes.txt" :=
  C9_theorem fs0 "notes.txt" rfl rfl

/-- C5: the rectangle recorded at index `i` of a provider's rendered
figure is anchored at `coordinates[0]` and has width exactly
`coordinates[2][0] - coordinates[0][0]` and height exactly
`coordinates[2][1] - coordinates[0][1]`, sign preserved, unclamped. -/
theorem C5_theorem : ∀ (img : PILImage) (resp : OCRResponse) (i : Nat)
    (box : OCRBoundingBox), resp.bounding_boxes[i]? = some box →
    (figPatches (plot_one img resp).image)[i]? = some
      { xy := box.coord0
        width := box.coord2.1 - box.coord0.1
        height := box.coord2.2 - box.coord0.2
        linewidth := 1
        edgecolor := "r"
        facecolor := "none" } := by
  intro img resp i box h
  show (resp.bounding_boxes.map mkRect)[i]? = _
  rw [List.getElem?_map, h]
  rfl

/-- C5 witness: a malformed box with origin after the opposite corner
yields a recorded rectangle of width `-40` and height `-30`, passed
through unnormalized. -/
theorem C5_witness :
    (figPatches (plot_one (PILImage.fromFile "img.png") respNeg).image)[0]? = some
      { xy := (50, 40)
        width := -40
        height := -30
        linewidth := 1
        edgecolor := "r"
        facecolor := "none" } :=
  C5_theorem (PILImage.fromFile "img.png") respNeg 0 boxNeg rfl

/-- C10: a selected provider name that is not a member of the Provider
enumeration makes `process_ocr` and `process_translation` fail with an
error raised at the enum lookup; the unknown name is neither skipped nor
mapped to a placeholder and no output sequence is produced. -/
theorem C10_theorem : ∀ (fs : FS) (ad : Adapter) (image : ImageInput)
    (text source_lang target_lang : String) (providers : List String)
    (name : String),
    name ∈ providers → (∀ p : Provider, Provider.enumGet name ≠ .ok p) →
    (∃ e, process_ocr fs ad image providers = .error e) ∧
    (∃ e, process_translation ad text providers source_lang target_lang =
      .error e) := by
  intro fs ad image text source_lang target_lang providers name hmem hbad
  constructor
  · cases h1 : get_image_path fs image with
    | error e => exact ⟨e, by simp only [process_ocr]; rw [h1]⟩
    | ok image_path =>
      obtain ⟨e, he⟩ := ocrFanOut_error_of_mem ad image_path providers [] name hmem hbad
      exact ⟨e, by simp only [process_ocr, h1, he]⟩
  · obtain ⟨e, he⟩ := textFanOut_error_of_mem
      (translationCall ad text source_lang target_lang) providers [] name hmem
      (translationCall_error ad text source_lang target_lang name hbad)
    exact ⟨e, by simp only [process_translation]; rw [he]⟩

/-- C10 witness: the unknown name `FOO` aborts both task kinds. -/
theorem C10_witness :
    (∃ e, process_ocr fs0 adOK (.str "img.png") ["FOO"] = .error e) ∧
    (∃ e, process_translation adOK "hello" ["FOO"] "en" "fr" = .error e) := by
  have hbad : ∀ p : Provider, Provider.enumGet "FOO" ≠ .ok p := by
    intro p h
    have hr : Provider.enumGet "FOO" = .error ("KeyError: " ++ "FOO") := rfl
    rw [hr] at h
    cases h
  exact C10_theorem fs0 adOK (.str "img.png") "hello" "en" "fr" ["FOO"] "FOO"
    (by simp) hbad

/-! ### Agreement of fan-out results off one key -/

/-- Two string-keyed result dicts agree at every key other than `rogue`. -/
def agreesOff (rogue : String) (d₁ d₂ : List (String × String)) : Prop :=
  ∀ k, k ≠ rogue → dictGet? d₁ k = dictGet? d₂ k

/-- Two fan-out results are related when they are the same error, or both
succeed with dicts agreeing off `rogue`. -/
def fanOutAgree (rogue : String) :
    Except String (List (String × String)) →
    Except String (List (String × String)) → Prop
  | .error e₁, .error e₂ => e₁ = e₂
  | .ok d₁, .ok d₂ => agreesOff rogue d₁ d₂
  | .error _, .ok _ => False
  | .ok _, .error _ => False

theorem agreesOff_insert (rogue k t : String) (d₁ d₂ : List (String × String))
    (h : agreesOff rogue d₁ d₂) :
    agreesOff rogue (dictInsert d₁ k t) (dictInsert d₂ k t) := by
  intro k' hk'
  rw [dictGet?_dictInsert, dictGet?_dictInsert]
  by_cases hkk : k = k'
  · simp [hkk]
  · simp [hkk, h k' hk']

theorem textFanOut_agree (call : String → Except String String) (rogue : String) :
    ∀ (names : List String) (d₁ d₂ : List (String × String)),
    agreesOff rogue d₁ d₂ →
    fanOutAgree rogue (textFanOut call names d₁) (textFanOut call names d₂) := by
  intro names
  induction names with
  | nil => intro d₁ d₂ h; simpa [textFanOut, fanOutAgree] using h
  | cons n rest ih =>
    intro d₁ d₂ h
    simp only [textFanOut]
    cases h1 : call n with
    | error e => simp [fanOutAgree]
    | ok t =>
      exact ih (dictInsert d₁ n t) (dictInsert d₂ n t)
        (agreesOff_insert rogue n t d₁ d₂ h)

theorem textFanOut_skip (call : String → Except String String) (rogue t : String)
    (hcall : call rogue = .ok t) :
    ∀ (pre post : List String) (acc : List (String × String)),
    fanOutAgree rogue (textFanOut call (pre ++ rogue :: post) acc)
      (textFanOut call (pre ++ post) acc) := by
  intro pre
  induction pre with
  | nil =>
    intro post acc
    simp only [List.nil_append, textFanOut, hcall]
    exact textFanOut_agree call rogue post (dictInsert acc rogue t) acc
      (fun k hk => dictGet?_dictInsert_ne acc rogue k t (fun h => hk h.symm))
  | cons n pre ih =>
    intro post acc
    simp only [List.cons_append, textFanOut]
    cases h1 : call n with
    | error e => simp [fanOutAgree]
    | ok u => exact ih post (dictInsert acc n u)

theorem textAssemble_congr (canonical : List String)
    (d₁ d₂ : List (String × String)) (rogue : String)
    (hnot : rogue ∉ canonical) (h : agreesOff rogue d₁ d₂) :
    textAssemble canonical d₁ = textAssemble canonical d₂ := by
  induction canonical with
  | nil => rfl
  | cons n rest ih =>
    have hn : n ≠ rogue := by
      intro h'
      exact hnot (h' ▸ List.mem_cons_self n rest)
    have hrest : rogue ∉ rest := fun h' => hnot (List.mem_cons_of_mem n h')
    simp only [textAssemble, List.map_cons] at ih ⊢
    rw [h n hn, ih hrest]

/-- C7: a selected provider that is not in the task's canonical provider
order is ignored entirely by assembly: provided its own invocation
succeeds, the output sequence is exactly the one obtained without
selecting it (it contributes nothing and causes no error), for
Transcription and Translation alike. -/
theorem C7_theorem : ∀ (ad : Adapter)
    (audio text source_lang target_lang : String)
    (pre post : List String) (rogue : String),
    (rogue ∉ TRANSCRIPTION_PROVIDERS →
      (∃ t, transcriptionCall ad audio rogue = .ok t) →
      process_transcription ad audio (pre ++ rogue :: post) =
        process_transcription ad audio (pre ++ post)) ∧
    (rogue ∉ TRANSLATION_PROVIDERS →
      (∃ t, translationCall ad text source_lang target_lang rogue = .ok t) →
      process_translation ad text (pre ++ rogue :: post) source_lang target_lang =
        process_translation ad text (pre ++ post) source_lang target_lang) := by
  intro ad audio text source_lang target_lang pre post rogue
  constructor
  · intro hnot ⟨t, hcall⟩
    have hag := textFanOut_skip (transcriptionCall ad audio) rogue t hcall pre post []
    simp only [process_transcription]
    cases hA : textFanOut (transcriptionCall ad audio) (pre ++ rogue :: post) [] with
    | error e₁ =>
      cases hB : textFanOut (transcriptionCall ad audio) (pre ++ post) [] with
      | error e₂ =>
        rw [hA, hB] at hag
        simp only [fanOutAgree] at hag
        rw [hag]
      | ok d₂ =>
        rw [hA, hB] at hag
        simp [fanOutAgree] at hag
    | ok d₁ =>
      cases hB : textFanOut (transcriptionCall ad audio) (pre ++ post) [] with
      | error e₂ =>
        rw [hA, hB] at hag
        simp [fanOutAgree] at hag
      | ok d₂ =>
        rw [hA, hB] at hag
        simp only [fanOutAgree] at hag
        show Except.ok (textAssemble TRANSCRIPTION_PROVIDERS d₁) =
          Except.ok (textAssemble TRANSCRIPTION_PROVIDERS d₂)
        rw [textAssemble_congr TRANSCRIPTION_PROVIDERS d₁ d₂ rogue hnot hag]
  · intro hnot ⟨t, hcall⟩
    have hag := textFanOut_skip (translationCall ad text source_lang target_lang)
      rogue t hcall pre post []
    simp only [process_translation]
    cases hA : textFanOut (translationCall ad text source_lang target_lang)
        (pre ++ rogue :: post) [] with
    | error e₁ =>
      cases hB : textFanOut (translationCall ad text source_lang target_lang)
          (pre ++ post) [] with
      | error e₂ =>
        rw [hA, hB] at hag
        simp only [fanOutAgree] at hag
        rw [hag]
      | ok d₂ =>
        rw [hA, hB] at hag
        simp [fanOutAgree] at hag
    | ok d₁ =>
      cases hB : textFanOut (translationCall ad text source_lang target_lang)
          (pre ++ post) [] with
      | error e₂ =>
        rw [hA, hB] at hag
        simp [fanOutAgree] at hag
      | ok d₂ =>
        rw [hA, hB] at hag
        simp only [fanOutAgree] at hag
        show Except.ok (textAssemble TRANSLATION_PROVIDERS d₁) =
          Except.ok (textAssemble TRANSLATION_PROVIDERS d₂)
        rw [textAssemble_congr TRANSLATION_PROVIDERS d₁ d₂ rogue hnot hag]

/-- C7 witness: selecting `SENTISIGHT` (a valid Provider member outside
both text-task canonical orders) changes neither task's output. -/
theorem C7_witness :
    process_transcription adOK "a.wav" (["AZURE"] ++ "SENTISIGHT" :: []) =
      process_transcription adOK "a.wav" (["AZURE"] ++ []) ∧
    process_translation adOK "hello" (["AWS"] ++ "SENTISIGHT" :: []) "en" "fr" =
      process_translation adOK "hello" (["AWS"] ++ []) "en" "fr" :=
  ⟨(C7_theorem adOK "a.wav" "hello" "en" "fr" ["AZURE"] [] "SENTISIGHT").1
      (by decide) ⟨"hi", rfl⟩,
   (C7_theorem adOK "a.wav" "hello" "en" "fr" ["AWS"] [] "SENTISIGHT").2
      (by decide) ⟨"bonjour", rfl⟩⟩

/-! ### Plot-loop characterization -/

theorem plotLoop_ok_map (fs : FS) (img : PILImage) (image_name output_dir : String) :
    ∀ (responses : List (Provider × OCRResponse)) (out : List (Provider × PlotResult)),
    plotLoop fs img image_name output_dir responses = .ok out →
    out = responses.map (fun e => (e.1, plot_one img e.2)) := by
  intro responses
  induction responses with
  | nil =>
    intro out h
    simp only [plotLoop] at h
    cases h
    rfl
  | cons hd rest ih =>
    obtain ⟨provider, ocr_response⟩ := hd
    intro out h
    simp only [plotLoop] at h
    cases h1 : fs.makedirs output_dir with
    | error e => rw [h1] at h; cases h
    | ok u =>
      rw [h1] at h
      cases h2 : fs.save (plot_one img ocr_response).image
          (pathJoin output_dir ("ocr_" ++ provider.value ++ "_" ++ image_name)) with
      | error e => rw [h2] at h; cases h
      | ok u₂ =>
        rw [h2] at h
        cases h3 : plotLoop fs img image_name output_dir rest with
        | error e => rw [h3] at h; cases h
        | ok tail =>
          rw [h3] at h
          cases h
          rw [ih tail h3]
          rfl

theorem dictGet?_middle_ne {κ ν : Type} [DecidableEq κ]
    (pre post : List (κ × ν)) (q : κ) (a b : ν) (p : κ) (hp : p ≠ q) :
    dictGet? (pre ++ (q, a) :: post) p = dictGet? (pre ++ (q, b) :: post) p := by
  induction pre with
  | nil =>
    have hq : ¬ q = p := fun h => hp h.symm
    simp [dictGet?, hq]
  | cons hd rest ih =>
    obtain ⟨k, v⟩ := hd
    simp only [List.cons_append, dictGet?]
    by_cases hk : k = p
    · simp [hk]
    · simp [hk, ih]

/-- C8: per-provider rendering is independent: two `plot_bounding_boxes`
runs on the same base image that differ only in one provider's response
(its boxes or text) return identical `{annotated image, full text}`
entries for every other provider. -/
theorem C8_theorem : ∀ (fs : FS) (image_path output_dir : String)
    (pre post : List (Provider × OCRResponse)) (q : Provider)
    (r₁ r₂ : OCRResponse) (out₁ out₂ : List (Provider × PlotResult)),
    plot_bounding_boxes fs image_path (pre ++ (q, r₁) :: post) output_dir = .ok out₁ →
    plot_bounding_boxes fs image_path (pre ++ (q, r₂) :: post) output_dir = .ok out₂ →
    ∀ p : Provider, p ≠ q → dictGet? out₁ p = dictGet? out₂ p := by
  intro fs image_path output_dir pre post q r₁ r₂ out₁ out₂ h₁ h₂ p hp
  simp only [plot_bounding_boxes] at h₁ h₂
  cases hg : get_image_path fs (.str image_path) with
  | error e => rw [hg] at h₁; cases h₁
  | ok path =>
    simp only [hg] at h₁ h₂
    rw [plotLoop_ok_map fs (PILImage.fromFile path) (basename path) output_dir _ out₁ h₁,
        plotLoop_ok_map fs (PILImage.fromFile path) (basename path) output_dir _ out₂ h₂]
    simp only [List.map_append, List.map_cons]
    exact dictGet?_middle_ne _ _ q _ _ p hp

/-- C8 witness: changing only the `AWS` response leaves the `GCP` entry of
the returned mapping unchanged. -/
theorem C8_witness :
    ∃ out₁ out₂,
      plot_bounding_boxes fs0 "img.png"
        ([] ++ (Provider.AWS, respA1) :: [(Provider.GCP, respG)]) "out" = .ok out₁ ∧
      plot_bounding_boxes fs0 "img.png"
        ([] ++ (Provider.AWS, respA2) :: [(Provider.GCP, respG)]) "out" = .ok out₂ ∧
      dictGet? out₁ Provider.GCP = dictGet? out₂ Provider.GCP :=
  ⟨_, _, rfl, rfl,
    C8_theorem fs0 "img.png" "out" [] [(Provider.GCP, respG)] Provider.AWS
      respA1 respA2 _ _ rfl rfl Provider.GCP (by decide)⟩

/-- C1 counterexample: with `AWS` and `GCP` selected and the `AWS` client
call failing, every task kind aborts with the provider's error instead of
collecting the other provider's response — even though `GCP` alone would
succeed. -/
theorem C1_counterexample :
    process_ocr fs0 adFail (.str "img.png") ["AWS", "GCP"] = .error "AWS boom" ∧
    process_transcription adFail "a.wav" ["AWS", "AZURE"] = .error "AWS boom" ∧
    process_translation adFail "hello" ["AWS", "GCP"] "en" "fr" = .error "AWS boom" ∧
    (∃ out, process_ocr fs0 adFail (.str "img.png") ["GCP"] = .ok out) :=
  ⟨rfl, rfl, rfl, ⟨_, rfl⟩⟩

/-- C1 (amended): a failing provider-client invocation is not isolated:
its error propagates out of the fan-out loop and aborts the whole request
for every task kind, so no result mapping is produced at all; a provider
is absent from the result mapping only by not being selected. -/
theorem C1_theorem : ∀ (fs : FS) (ad : Adapter) (image : ImageInput)
    (audio text source_lang target_lang name : String) (p : Provider)
    (rest : List String),
    Provider.enumGet name = .ok p →
    (∀ (path e : String), get_image_path fs image = .ok path →
      ad.ocr p path = .error e →
      process_ocr fs ad image (name :: rest) = .error e) ∧
    (∀ e, ad.transcription p audio = .error e →
      process_transcription ad audio (name :: rest) = .error e) ∧
    (∀ e, ad.translation p source_lang target_lang text = .error e →
      process_translation ad text (name :: rest) source_lang target_lang =
        .error e) := by
  intro fs ad image audio text source_lang target_lang name p rest hen
  refine ⟨?_, ?_, ?_⟩
  · intro path e hpath herr
    simp only [process_ocr, hpath, ocrFanOut, hen, herr]
  · intro e herr
    simp only [process_transcription, textFanOut, transcriptionCall, hen, herr]
  · intro e herr
    simp only [process_translation, textFanOut, translationCall, hen, herr]

/-- C1 witness: the amended propagation behavior at a concrete failing
adapter, for all three task kinds. -/
theorem C1_witness :
    process_ocr fs0 adFail (.str "pic.png") ["AWS"] = .error "AWS boom" ∧
    process_transcription adFail "b.wav" ["AWS"] = .error "AWS boom" ∧
    process_translation adFail "hey" ["AWS"] "en" "de" = .error "AWS boom" :=
  ⟨(C1_theorem fs0 adFail (.str "pic.png") "b.wav" "hey" "en" "de" "AWS"
      Provider.AWS [] rfl).1 "pic.png" "AWS boom" rfl rfl,
   (C1_theorem fs0 adFail (.str "pic.png") "b.wav" "hey" "en" "de" "AWS"
      Provider.AWS [] rfl).2.1 "AWS boom" rfl,
   (C1_theorem fs0 adFail (.str "pic.png") "b.wav" "hey" "en" "de" "AWS"
      Provider.AWS [] rfl).2.2 "AWS boom" rfl⟩

/-- C6 counterexample: when saving the annotated image fails,
`plot_bounding_boxes` returns no mapping at all — the provider's entry is
gone, not "included unchanged" — although the same call with a working
filesystem returns the provider's rendered entry. -/
theorem C6_counterexample :
    plot_bounding_boxes fsSaveFail "img.png" [(Provider.AWS, respA1)] "out" =
      .error "disk full" ∧
    (∃ out, plot_bounding_boxes fs0 "img.png" [(Provider.AWS, respA1)] "out" =
      .ok out ∧
      dictGet? out Provider.AWS =
        some (plot_one (PILImage.fromFile "img.png") respA1)) :=
  ⟨rfl, ⟨_, rfl, rfl⟩⟩

/-- C6 (amended): persisting annotated images is not best-effort: if the
save of a provider's annotated image fails, `plot_bounding_boxes`
propagates that error and returns no result mapping; entries are returned
only when every save succeeds. -/
theorem C6_theorem : ∀ (fs : FS) (image_path path output_dir e : String)
    (p : Provider) (resp : OCRResponse) (rest : List (Provider × OCRResponse)),
    get_image_path fs (.str image_path) = .ok path →
    fs.makedirs output_dir = .ok () →
    fs.save (plot_one (PILImage.fromFile path) resp).image
      (pathJoin output_dir ("ocr_" ++ p.value ++ "_" ++ basename path)) =
      .error e →
    plot_bounding_boxes fs image_path ((p, resp) :: rest) output_dir =
      .error e := by
  intro fs image_path path output_dir e p resp rest hg hmk hsv
  simp only [plot_bounding_boxes, hg, plotLoop, hmk, hsv]

/-- C6 witness: the amended abort-on-save-failure behavior at a concrete
filesystem whose saves fail. -/
theorem C6_witness :
    plot_bounding_boxes fsSaveFail "photo2.png" [(Provider.GCP, respG)] "outdir" =
      .error "disk full" :=
  C6_theorem fsSaveFail "photo2.png" "photo2.png" "outdir" "disk full"
    Provider.GCP respG [] rfl rfl rfl

end VisDemo
